import Mathlib

/-!
Verification of the LCD1602/LM35 display-driver protocol layer
(`src/main.c` of the repository) against its natural-language
specification.  The driver core is shallowly embedded: every bus
transaction and every delay the C code performs is recorded as an
event in a trace, machine bytes are `Nat` values below 256, and the
bitwise expressions of the C source are transliterated directly.
-/

set_option autoImplicit false
set_option maxRecDepth 100000

namespace LCD1602

/-- An observable action of the driver layer: either a blocking I2C
master write (`i2cSend payload length blocking timeoutMs`, mirroring
the arguments of `LPI2C_DRV_MasterSendDataBlocking`) or a call to the
delay service (`timeDelay ms`, mirroring `OSIF_TimeDelay`). -/
inductive LCDEvent : Type
| i2cSend (payload : List Nat) (length : Nat) (blocking : Bool) (timeoutMs : Nat)
| timeDelay (ms : Nat)
deriving DecidableEq, Repr

/-- Transport status codes (`status_t` of the SDK): the blocking send
returns one of these; the driver stores it into a local and discards it. -/
inductive status_t : Type
| STATUS_SUCCESS
| STATUS_ERROR
| STATUS_BUSY
| STATUS_TIMEOUT
deriving DecidableEq, Repr

/-- The 4-byte `i2c_payload` array built by `LCD_SendByte` in main.c
(lines 152-162): high nibble with EN=1 then EN=0, low nibble with EN=1
then EN=0, each byte OR-ed with the RS bit and the backlight bit 0x08. -/
def lcd_i2c_payload (data rs_bit : Nat) : List Nat :=
  let high_nibble := data &&& 0xF0
  let low_nibble := (data <<< 4) &&& 0xF0
  [high_nibble ||| rs_bit ||| 0x08 ||| 0x04,
   high_nibble ||| rs_bit ||| 0x08,
   low_nibble ||| rs_bit ||| 0x08 ||| 0x04,
   low_nibble ||| rs_bit ||| 0x08]

/-- Trace of `LCD_SendByte` (main.c lines 149-167): one single blocking
transport call carrying the whole 4-byte payload, length 4, timeout 100. -/
def LCD_SendByte (data rs_bit : Nat) : List LCDEvent :=
  [LCDEvent.i2cSend (lcd_i2c_payload data rs_bit) 4 true 100]

/-- `LCD_SendByte` with the transport made explicit, to reason about what
the caller can observe.  The transport is a function from the call's
arguments to a status; as in the C source the returned status is bound
to a local variable and then cast to void.  The result is the pair of
the emitted event trace and the value returned to the caller (`Unit`,
since the C function has return type `void`). -/
def LCD_SendByte_run (transport : List Nat → Nat → Bool → Nat → status_t)
    (data rs_bit : Nat) : List LCDEvent × Unit :=
  let pl := lcd_i2c_payload data rs_bit
  let _status : status_t := transport pl 4 true 100
  ([LCDEvent.i2cSend pl 4 true 100], ())

/-- `LCD_SendCommand` (main.c lines 173-176): RS = 0 for commands. -/
def LCD_SendCommand (command : Nat) : List LCDEvent :=
  LCD_SendByte command 0

/-- `LCD_SendData` (main.c lines 182-185): RS = 1 for data. -/
def LCD_SendData (data : Nat) : List LCDEvent :=
  LCD_SendByte data 1

/-- Trace of `LCD_SendString` (main.c lines 191-197) on a memory region
modelled as a list of bytes: iterate `LCD_SendData` on each character
until the first NUL byte.  (A genuinely null-terminated C string always
contains a 0, so the end-of-list case is never reached on valid input.) -/
def LCD_SendString : List Nat → List LCDEvent
| [] => []
| c :: rest => if c = 0 then [] else LCD_SendData c ++ LCD_SendString rest

/-- Step-counted version of the `LCD_SendString` loop, for termination
reasoning: `fuel` bounds the number of loop iterations (one iteration =
one `LCD_SendData` call plus the pointer increment).  `none` means the
loop either ran out of fuel or walked off the end of the memory region
without meeting a NUL; `some t` means the loop exited normally having
emitted trace `t`. -/
def LCD_SendString_loop : Nat → List Nat → Option (List LCDEvent)
| _, [] => none
| fuel, c :: rest =>
  if c = 0 then some []
  else
    match fuel with
    | 0 => none
    | fuel' + 1 =>
      (LCD_SendString_loop fuel' rest).map (fun t => LCD_SendData c ++ t)

/-- Trace of `LCD_Init` (main.c lines 203-225): power-up delay, the
three raw `LCD_SendByte 0x30 0` synchronisation transmissions with
delays 5, 1, 1, the switch to 4-bit via `LCD_SendByte 0x20 0` and delay
1, then function set 0x28, display control 0x0C, clear 0x01 with delay
2, entry mode 0x06 and return home 0x02 via `LCD_SendCommand`. -/
def LCD_Init : List LCDEvent :=
  [LCDEvent.timeDelay 50]
    ++ LCD_SendByte 0x30 0 ++ [LCDEvent.timeDelay 5]
    ++ LCD_SendByte 0x30 0 ++ [LCDEvent.timeDelay 1]
    ++ LCD_SendByte 0x30 0 ++ [LCDEvent.timeDelay 1]
    ++ LCD_SendByte 0x20 0 ++ [LCDEvent.timeDelay 1]
    ++ LCD_SendCommand (0x20 ||| 0x08)
    ++ LCD_SendCommand (0x08 ||| 0x04)
    ++ LCD_SendCommand 0x01 ++ [LCDEvent.timeDelay 2]
    ++ LCD_SendCommand (0x04 ||| 0x02)
    ++ LCD_SendCommand 0x02

/-- Modelled from the spec (§4.4 step 2-3): a "raw half-byte
transaction" carrying a single nibble `nib` in the upper bits — one
enable pulse only, hence exactly two expander bytes (EN=1 then EN=0),
each with the RS and backlight bits, and no second nibble group.  The
source has no such function; this is the payload the spec's words
describe, for comparison with what `LCD_Init` actually emits. -/
def rawHalfByteTx (nib rs_bit : Nat) : List Nat :=
  [(nib <<< 4) ||| rs_bit ||| 0x08 ||| 0x04,
   (nib <<< 4) ||| rs_bit ||| 0x08]

/-- Modelled from the spec (§4.4): the 8-step initialisation shape.  A
trace matches when it is exactly power-settle delay, three sync
transmissions of byte 0x30, switch-to-4-bit transmission of byte 0x20,
function-set 0x28, display-control 0x0C, clear 0x01, entry-mode 0x06
and home 0x02, in that order with nothing else interleaved, and each
inserted delay meets its stated minimum (≥50, then ≥5, ≥1, ≥1 after the
syncs, ≥1 after the switch, ≥2 after clear).  The transaction format of
a single transmission step is abstracted by `txFor`, the event sequence
the implementation uses to transmit a given byte. -/
def initTraceSpec (txFor : Nat → List LCDEvent) (t : List LCDEvent) : Prop :=
  ∃ d0 d1 d2 d3 d4 d5 : Nat,
    50 ≤ d0 ∧ 5 ≤ d1 ∧ 1 ≤ d2 ∧ 1 ≤ d3 ∧ 1 ≤ d4 ∧ 2 ≤ d5 ∧
    t = [LCDEvent.timeDelay d0]
      ++ txFor 0x30 ++ [LCDEvent.timeDelay d1]
      ++ txFor 0x30 ++ [LCDEvent.timeDelay d2]
      ++ txFor 0x30 ++ [LCDEvent.timeDelay d3]
      ++ txFor 0x20 ++ [LCDEvent.timeDelay d4]
      ++ txFor 0x28
      ++ txFor 0x0C
      ++ txFor 0x01 ++ [LCDEvent.timeDelay d5]
      ++ txFor 0x06
      ++ txFor 0x02

/-! ## Helper lemmas -/

/-- Each data transmission is a single event, so the trace of a string
has one event per transmitted character. -/
theorem length_flatMap_sendData (s : List Nat) :
    (s.flatMap LCD_SendData).length = s.length := by
  induction s with
  | nil => rfl
  | cons c rest ih => simp [LCD_SendData, LCD_SendByte, ih]

/-- On a NUL-terminated memory region whose characters are all nonzero,
the string writer emits exactly the concatenation of one data
transmission per character, stopping at the terminator. -/
theorem sendString_no_null_append (s tail : List Nat) (h : ∀ c ∈ s, c ≠ 0) :
    LCD_SendString (s ++ 0 :: tail) = s.flatMap LCD_SendData := by
  induction s with
  | nil => simp [LCD_SendString]
  | cons c rest ih =>
    have hc : c ≠ 0 := h c (by simp)
    simp only [List.cons_append, LCD_SendString, if_neg hc, List.flatMap_cons,
      List.append_eq]
    rw [ih (fun x hx => h x (by simp [hx]))]

/-- One-step unfolding of the fuelled loop with fuel available. -/
theorem loop_step (fuel c : Nat) (rest : List Nat) :
    LCD_SendString_loop (fuel + 1) (c :: rest)
      = if c = 0 then some []
        else (LCD_SendString_loop fuel rest).map
          (fun t => LCD_SendData c ++ t) := rfl

/-- One-step unfolding of the fuelled loop with no fuel left. -/
theorem loop_zero (c : Nat) (rest : List Nat) :
    LCD_SendString_loop 0 (c :: rest)
      = if c = 0 then some [] else none := rfl

/-- Fuel equal to the character count lets the loop run to the
terminator, emitting one data transmission per character. -/
theorem loop_fuel_enough (s tail : List Nat) (h : ∀ c ∈ s, c ≠ 0) :
    LCD_SendString_loop s.length (s ++ 0 :: tail)
      = some (s.flatMap LCD_SendData) := by
  induction s with
  | nil => rfl
  | cons c rest ih =>
    have hc : c ≠ 0 := h c (by simp)
    rw [show (c :: rest).length = rest.length + 1 from rfl, List.cons_append,
      loop_step, if_neg hc, ih (fun x hx => h x (by simp [hx]))]
    rfl

/-- Any fuel below the character count is exhausted before the loop
reaches the terminator. -/
theorem loop_fuel_starved (s tail : List Nat) :
    ∀ fuel, (∀ c ∈ s, c ≠ 0) → fuel < s.length →
      LCD_SendString_loop fuel (s ++ 0 :: tail) = none := by
  induction s with
  | nil => exact fun fuel _ hfuel => absurd hfuel (by simp)
  | cons c rest ih =>
    intro fuel h hfuel
    have hc : c ≠ 0 := h c (by simp)
    cases fuel with
    | zero => rw [List.cons_append, loop_zero, if_neg hc]
    | succ fuel' =>
      rw [List.cons_append, loop_step, if_neg hc,
        ih fuel' (fun x hx => h x (by simp [hx]))
          (by simpa [Nat.succ_lt_succ_iff] using hfuel)]
      rfl

/-! ## Claim theorems -/

/-- Claim C1: for every 8-bit byte and both mode flags the byte
transmitter builds exactly the payload
[(hi|mode|0x0C), (hi|mode|0x08), (lo|mode|0x0C), (lo|mode|0x08)] with
hi = byte &&& 0xF0 and lo = (byte <<< 4) &&& 0xF0; in particular byte
0x20 in command mode yields [0x2C, 0x28, 0x0C, 0x08]. -/
theorem C1_sendByte_payload (data rs : Nat)
    (_hdata : data < 256) (_hrs : rs = 0 ∨ rs = 1) :
    lcd_i2c_payload data rs =
      [(data &&& 0xF0) ||| rs ||| 0x0C,
       (data &&& 0xF0) ||| rs ||| 0x08,
       ((data <<< 4) &&& 0xF0) ||| rs ||| 0x0C,
       ((data <<< 4) &&& 0xF0) ||| rs ||| 0x08]
    ∧ lcd_i2c_payload 0x20 0 = [0x2C, 0x28, 0x0C, 0x08] := by
  refine ⟨?_, by decide⟩
  simp [lcd_i2c_payload, Nat.or_assoc]

theorem C1_sendByte_payload_witness :
    (0x41 : Nat) < 256 ∧ ((1 : Nat) = 0 ∨ (1 : Nat) = 1)
    ∧ (lcd_i2c_payload 0x41 1 = [0x4D, 0x49, 0x1D, 0x19]
       ∧ lcd_i2c_payload 0x20 0 = [0x2C, 0x28, 0x0C, 0x08]) :=
  ⟨by decide, by decide, C1_sendByte_payload 0x41 1 (by decide) (by decide)⟩

/-- Claim C2: the string writer emits exactly one data transmission per
character before the NUL terminator, in input order (whatever follows
the terminator in memory), zero transmissions for the empty string, and
never transmits the terminator itself. -/
theorem C2_sendString_per_char (s tail : List Nat) (h : ∀ c ∈ s, c ≠ 0) :
    LCD_SendString (s ++ 0 :: tail) = s.flatMap LCD_SendData
    ∧ (LCD_SendString (s ++ 0 :: tail)).length = s.length
    ∧ LCD_SendString [0] = [] := by
  refine ⟨sendString_no_null_append s tail h, ?_, by decide⟩
  rw [sendString_no_null_append s tail h, length_flatMap_sendData]

theorem C2_sendString_per_char_witness :
    (∀ c ∈ [0x48, 0x69], c ≠ 0)
    ∧ (LCD_SendString ([0x48, 0x69] ++ 0 :: [])
        = [0x48, 0x69].flatMap LCD_SendData
       ∧ (LCD_SendString ([0x48, 0x69] ++ 0 :: [])).length = 2
       ∧ LCD_SendString [0] = []) :=
  ⟨by decide, C2_sendString_per_char [0x48, 0x69] [] (by decide)⟩

/-- Claim C3: the initialisation trace matches the 8-step sequence of
spec §4.4 in order — power-settle, sync ×3, switch-to-4-bit, function
set, display control, clear, entry mode, home — with no step skipped or
reordered and every inserted delay at least its stated minimum. -/
theorem C3_init_matches_spec :
    initTraceSpec (fun b => LCD_SendByte b 0) LCD_Init := by
  refine ⟨50, 5, 1, 1, 1, 2, le_refl _, le_refl _, le_refl _, le_refl _,
    le_refl _, le_refl _, by decide⟩

/-- Claim C4 counterexample: the first force-8-bit-sync transmission of
LCD_Init is a full byte-transmitter call whose 4-byte payload is not
the 2-byte raw half-byte transaction the spec describes. -/
theorem C4_counterexample :
    LCD_Init[1]? = some (LCDEvent.i2cSend (lcd_i2c_payload 0x30 0) 4 true 100)
    ∧ (lcd_i2c_payload 0x30 0).length = 4
    ∧ lcd_i2c_payload 0x30 0 ≠ rawHalfByteTx 0x3 0 := by decide

/-- Claim C4 amended: the three sync steps and the switch-to-4-bit step
are full byte-transmitter calls of bytes 0x30 and 0x20 (nibbles 0x3
resp. 0x2 in the upper bits followed by a low nibble 0x0), each a
single 4-byte burst transaction. -/
theorem C4_amended_full_byte_calls :
    LCD_Init[1]? = some (LCDEvent.i2cSend (lcd_i2c_payload 0x30 0) 4 true 100)
    ∧ LCD_Init[3]? = some (LCDEvent.i2cSend (lcd_i2c_payload 0x30 0) 4 true 100)
    ∧ LCD_Init[5]? = some (LCDEvent.i2cSend (lcd_i2c_payload 0x30 0) 4 true 100)
    ∧ LCD_Init[7]? = some (LCDEvent.i2cSend (lcd_i2c_payload 0x20 0) 4 true 100)
    ∧ lcd_i2c_payload 0x30 0 = [0x3C, 0x38, 0x0C, 0x08]
    ∧ lcd_i2c_payload 0x20 0 = [0x2C, 0x28, 0x0C, 0x08] := by decide

/-- Claim C5: every byte transmission is one single blocking transport
call covering all 4 payload bytes (length field 4, payload of 4 bytes),
never 4 separate calls, with the same fixed timeout 100 on every
invocation. -/
theorem C5_single_blocking_call (data rs : Nat) :
    (LCD_SendByte data rs).length = 1
    ∧ LCD_SendByte data rs
        = [LCDEvent.i2cSend (lcd_i2c_payload data rs) 4 true 100]
    ∧ (lcd_i2c_payload data rs).length = 4 :=
  ⟨rfl, rfl, rfl⟩

/-- Claim C6: the byte transmitter returns unit (no error information)
and its observable behaviour toward the caller — returned value and
emitted trace — is identical for every transport status, success or
failure. -/
theorem C6_status_discarded
    (t1 t2 : List Nat → Nat → Bool → Nat → status_t) (data rs : Nat) :
    LCD_SendByte_run t1 data rs = LCD_SendByte_run t2 data rs
    ∧ (LCD_SendByte_run t1 data rs).2 = () :=
  ⟨rfl, rfl⟩

/-- Claim C7: for every byte value the data-mode burst equals the
command-mode burst with the RS bit (0x01) set in each of the 4 bytes;
the command-mode burst has RS clear everywhere and the nibble (data)
bits of the two bursts agree byte for byte. -/
theorem C7_mode_bit_only (data : Nat) (hdata : data < 256) :
    lcd_i2c_payload data 1 = (lcd_i2c_payload data 0).map (fun b => b ||| 0x01)
    ∧ (∀ b ∈ lcd_i2c_payload data 0, b &&& 0x01 = 0)
    ∧ (lcd_i2c_payload data 1).map (fun b => b &&& 0xF0)
        = (lcd_i2c_payload data 0).map (fun b => b &&& 0xF0) := by
  revert data; decide

theorem C7_mode_bit_only_witness :
    (0x37 : Nat) < 256
    ∧ (lcd_i2c_payload 0x37 1
        = (lcd_i2c_payload 0x37 0).map (fun b => b ||| 0x01)
       ∧ (∀ b ∈ lcd_i2c_payload 0x37 0, b &&& 0x01 = 0)
       ∧ (lcd_i2c_payload 0x37 1).map (fun b => b &&& 0xF0)
          = (lcd_i2c_payload 0x37 0).map (fun b => b &&& 0xF0)) :=
  ⟨by decide, C7_mode_bit_only 0x37 (by decide)⟩

/-- Claim C8 counterexample: the string "27 C " (bytes 0x32 0x37 0x20
0x43 0x20 then NUL) produces 5 data transmissions, not 6 as claimed. -/
theorem C8_counterexample :
    (LCD_SendString [0x32, 0x37, 0x20, 0x43, 0x20, 0]).length = 5
    ∧ (LCD_SendString [0x32, 0x37, 0x20, 0x43, 0x20, 0]).length ≠ 6 := by
  decide

/-- Claim C8 amended: the string "27 C " produces exactly 5 data
transmissions, the characters 2, 7, space, C, space in that order, and
no transmission for the NUL terminator. -/
theorem C8_amended_five_transmissions :
    LCD_SendString [0x32, 0x37, 0x20, 0x43, 0x20, 0]
      = LCD_SendData 0x32 ++ LCD_SendData 0x37 ++ LCD_SendData 0x20
        ++ LCD_SendData 0x43 ++ LCD_SendData 0x20
    ∧ (LCD_SendString [0x32, 0x37, 0x20, 0x43, 0x20, 0]).length = 5
    ∧ (∀ e ∈ LCD_SendString [0x32, 0x37, 0x20, 0x43, 0x20, 0],
        e ≠ LCDEvent.i2cSend (lcd_i2c_payload 0 1) 4 true 100) := by decide

/-- Claim C9: every payload byte the transmitter emits has the R/W bit
0x02 clear, and its low nibble is exactly rs ||| 0x08 ||| 0x04 or
rs ||| 0x08 — no other control bits are ever set. -/
theorem C9_control_bits (data rs : Nat)
    (hdata : data < 256) (hrs : rs = 0 ∨ rs = 1) :
    ∀ b ∈ lcd_i2c_payload data rs,
      b &&& 0x02 = 0
      ∧ (b &&& 0x0F = rs ||| 0x08 ||| 0x04 ∨ b &&& 0x0F = rs ||| 0x08) := by
  rcases hrs with h | h <;> subst h <;> revert data <;> decide

theorem C9_control_bits_witness :
    (0x37 : Nat) < 256 ∧ ((1 : Nat) = 0 ∨ (1 : Nat) = 1)
    ∧ (∀ b ∈ lcd_i2c_payload 0x37 1,
        b &&& 0x02 = 0
        ∧ (b &&& 0x0F = 1 ||| 0x08 ||| 0x04 ∨ b &&& 0x0F = 1 ||| 0x08)) :=
  ⟨by decide, by decide, C9_control_bits 0x37 1 (by decide) (by decide)⟩

/-- Claim C10: on a genuinely null-terminated string of N nonzero
characters the string-writer loop terminates after exactly N
iterations: N units of fuel suffice, producing one data transmission
per character, and any smaller fuel is exhausted before the loop
exits. -/
theorem C10_loop_terminates (s tail : List Nat) (fuel : Nat)
    (h : ∀ c ∈ s, c ≠ 0) (hfuel : fuel < s.length) :
    LCD_SendString_loop s.length (s ++ 0 :: tail)
      = some (s.flatMap LCD_SendData)
    ∧ LCD_SendString_loop fuel (s ++ 0 :: tail) = none :=
  ⟨loop_fuel_enough s tail h, loop_fuel_starved s tail fuel h hfuel⟩

theorem C10_loop_terminates_witness :
    (∀ c ∈ [0x32, 0x37], c ≠ 0) ∧ 1 < 2
    ∧ (LCD_SendString_loop 2 ([0x32, 0x37] ++ 0 :: [])
        = some ([0x32, 0x37].flatMap LCD_SendData)
       ∧ LCD_SendString_loop 1 ([0x32, 0x37] ++ 0 :: []) = none) :=
  ⟨by decide, by decide,
    C10_loop_terminates [0x32, 0x37] [] 1 (by decide) (by decide)⟩

end LCD1602
